import Mathlib

/-!
Shallow embedding of the `sbt` batch-script generator (modules
`src/sbt/config.py`, `src/sbt/options.py`, `src/sbt/render_helper.py`),
together with theorems settling the specification claims about it.

Python `dict[str, Any]` values are modelled as insertion-ordered
association lists (`Dict` below) with Python's assignment semantics:
assigning to an existing key updates the value in place, assigning a
fresh key appends it at the end.  Variable values are modelled by their
`str()` rendering (the code only ever merges them and formats them into
strings).
-/

set_option autoImplicit false

namespace Sbt

/-- Variable values, as their Python `str()` text. -/
abbrev Val := String

/-- An insertion-ordered string-keyed dictionary, as in CPython. -/
abbrev Dict := List (String × Val)

/-- Membership test `key in d` on a Python dict. -/
def dictContains : Dict → String → Bool
  | [], _ => false
  | kv :: rest, k => kv.1 == k || dictContains rest k

/-- Lookup `d[key]` on a Python dict (`none` when the key is absent). -/
def dictGet? : Dict → String → Option Val
  | [], _ => none
  | kv :: rest, k => if kv.1 == k then some kv.2 else dictGet? rest k

/-- Assignment `d[k] = v` on a Python dict: update in place if the key
exists, append otherwise. -/
def setKey : Dict → String → Val → Dict
  | [], k, v => [(k, v)]
  | kv :: rest, k, v =>
    if kv.1 == k then (k, v) :: rest else kv :: setKey rest k v

/-- Python's double-splat merge `{**a, **b}`: start from `a` and assign
every entry of `b` in order. -/
def pyMerge (a b : Dict) : Dict :=
  b.foldl (fun acc kv => setKey acc kv.1 kv.2) a

/-- Cartesian product of a list of candidate lists, in the order produced
by `itertools.product` (the last list varies fastest). -/
def prodList : List (List Val) → List (List Val)
  | [] => [[]]
  | l :: ls => l.flatMap (fun x => (prodList ls).map (fun c => x :: c))

/-- Configuration record from `sbt/config.py` (`Config`).  Only the
fields consumed by the variable-resolution and naming logic are carried;
the template source, slurm options and log directory are supplied at
their use sites (`renderLoop` below) since they reach the code through
I/O or through the separately modelled options renderer. -/
structure Config where
  default_values : Dict := []
  matrix : List (String × List Val) := []

/-- Method `Config.is_overriden_key`:
`key in self.matrix or key not in self.default_values`. -/
def Config.is_overriden_key (cfg : Config) (key : String) : Bool :=
  cfg.matrix.any (fun kv => kv.1 == key) || !(dictContains cfg.default_values key)

/-- Method `Config.variables_iter`: the matrix keys not pinned by an
override are expanded combinatorially; each combination is assigned on
top of `\x7b**default_values, **overrides\x7d`. -/
def Config.variables_iter (cfg : Config) (overrides : Dict) : List Dict :=
  let iterated := cfg.matrix.filter (fun kv => !(dictContains overrides kv.1))
  if iterated.length == 0 then
    [pyMerge cfg.default_values overrides]
  else
    (prodList (iterated.map (fun kv => kv.2))).map (fun matrix_vars =>
      ((iterated.map (fun kv => kv.1)).zip matrix_vars).foldl
        (fun vars kv => setKey vars kv.1 kv.2)
        (pyMerge cfg.default_values overrides))

/-- Character class `[A-Za-z0-9|_-]` of `_render_kv`'s regular
expression. -/
def allowedChar (c : Char) : Bool :=
  c.isAlpha || c.isDigit || c == '|' || c == '_' || c == '-'

/-- Substitution `re.sub(r"[^A-Za-z0-9|_-]", "-", s)`: every character
outside the class is replaced by a dash. -/
def sanitize (s : String) : String :=
  String.mk (s.data.map (fun c => if allowedChar c then c else '-'))

/-- Helper `_render_kv`: the whole `f"\x7bk\x7d-\x7bv\x7d"` string is
passed through the substitution. -/
def render_kv (k : String) (v : Val) : String :=
  sanitize (k ++ "-" ++ v)

/-- Helper `_override_name`. -/
def override_name (overrides : Dict) : String :=
  if overrides.length == 0 then "default"
  else String.intercalate "-" (overrides.map (fun kv => render_kv kv.1 kv.2))

/-- Job name derived in `render`: `self_path.stem + "-" + _override_name(...)`. -/
def jobName (stem : String) (overrides : Dict) : String :=
  stem ++ "-" ++ override_name overrides

/-- Job-name formula written the way claim C4 states it: the key is used
verbatim and only the value is sanitized.  This definition follows the
specification text, for comparison against `jobName`. -/
def specJobName (stem : String) (overrides : Dict) : String :=
  stem ++ "-" ++
    (if overrides.length == 0 then "default"
     else String.intercalate "-"
       (overrides.map (fun kv => kv.1 ++ "-" ++ sanitize kv.2)))

/-! ## Python values reaching the option renderer

`render_options` inspects field values dynamically (`is_empty`,
`isinstance` checks, `hasattr(value, "as_sbatch_str")`).  `Value` is the
corresponding dynamic view: each `Options` field is injected into it
before rendering.  Objects carrying an `as_sbatch_str` method appear as
`vobj` holding that method's result; `vraw` covers the non-sized,
method-less objects (`pathlib.Path`, `datetime`) whose `str()` text is
stored directly. -/

inductive Value where
  | vnone
  | vbool (b : Bool)
  | vint (n : Int)
  | vstr (s : String)
  | vraw (s : String)
  | vlist (elems : List Value)
  | vtuple (elems : List Value)
  | vobj (sbatch : String)

/-- Python `str()` on a `Value`.  The `vlist`/`vtuple`/`vobj` branches are
never reached by the rendering pipeline (lists, tuples and
`as_sbatch_str` objects are intercepted earlier), so their `repr`-style
text is immaterial and left empty resp. the stored string. -/
def pyStr : Value → String
  | .vnone => "None"
  | .vbool b => if b then "True" else "False"
  | .vint n => toString n
  | .vstr s => s
  | .vraw s => s
  | .vlist _ => ""
  | .vtuple _ => ""
  | .vobj s => s

/-- Function `is_empty` of `sbt/render_helper.py`:
`value in [None, False] or (isinstance(value, Sized) and len(value) == 0)`.
Note that Python's `0 == False` makes the integer zero empty. -/
def is_empty : Value → Bool
  | .vnone => true
  | .vbool b => !b
  | .vint n => n == 0
  | .vstr s => s.isEmpty
  | .vraw _ => false
  | .vlist l => l.isEmpty
  | .vtuple l => l.isEmpty
  | .vobj _ => false

/-- Function `render_optional` of `sbt/render_helper.py`. -/
def render_optional (value : Value) (pre suf : String) : String :=
  if is_empty value then "" else pre ++ pyStr value ++ suf

/-- Injection of a Python optional into `Value` (`None` ↦ `vnone`). -/
def optValue {α : Type} (f : α → Value) : Option α → Value
  | none => .vnone
  | some x => f x

/-- Union `int | str` (fields `gid`, `uid`, `priority`, `Signal.num`,
`GpuFreq.value`, `GpuFreq.memory`). -/
inductive IntOrStr where
  | int (n : Int)
  | str (s : String)

def IntOrStr.toValue : IntOrStr → Value
  | .int n => .vint n
  | .str s => .vstr s

/-! ## Composite option types (`sbt/options.py`) -/

/-- Dataclass `AcctgFreq`. -/
structure AcctgFreq where
  datatype : String
  interval : Int

def AcctgFreq.as_sbatch_str (x : AcctgFreq) : String :=
  x.datatype ++ "=" ++ toString x.interval

/-- Dataclass `Array` (field `range_` is deserialized from key `range`). -/
structure Array where
  values : List Int := []
  range_ : List Int := []
  max_parallel : Option Int := none

/-- Constructor of `Array` including its `__post_init__` validation. -/
def Array.make (values range_ : List Int) (max_parallel : Option Int) :
    Except String Array :=
  let vlen := values.length
  let rlen := range_.length
  if vlen == 0 && rlen == 0 then
    .error "One of values of range must be available in array = \x7b...\x7d"
  else if vlen > 0 && rlen > 0 then
    .error "Both of values of range are given in array = \x7b...\x7d"
  else if rlen == 1 || rlen > 3 then
    .error "array = \x7b range = [...]\x7d expects an array with length 2 or 3"
  else
    .ok ⟨values, range_, max_parallel⟩

/-- Method `Array.as_sbatch_str`.  The length-1 range branch is
unreachable after validation (Python's tuple unpacking would fail
there); it is mapped to the empty string. -/
def Array.as_sbatch_str (x : Array) : String :=
  let ret :=
    match x.range_ with
    | [] => String.intercalate "," (x.values.map toString)
    | [_] => ""
    | a :: b :: rest =>
      toString a ++ "-" ++ toString b ++
        (match rest with
         | [c] => ":" ++ toString c
         | _ => "")
  match x.max_parallel with
  | none => ret
  | some m => ret ++ "%" ++ toString m

/-- Dataclass `ClusterConstraint`. -/
structure ClusterConstraint where
  features : List String
  exclude : Bool := false

def ClusterConstraint.as_sbatch_str (x : ClusterConstraint) : String :=
  let ret := String.intercalate "," x.features
  if x.exclude then "!" ++ ret else ret

/-- First slot of `CpuFreq`: `int | Literal["low","medium","high","highm1"]`. -/
inductive CpuFreqP1 where
  | int (n : Int)
  | low
  | medium
  | high
  | highm1

def CpuFreqP1.toValue : CpuFreqP1 → Value
  | .int n => .vint n
  | .low => .vstr "low"
  | .medium => .vstr "medium"
  | .high => .vstr "high"
  | .highm1 => .vstr "highm1"

/-- Second slot of `CpuFreq`: `int | Literal["medium","high","highm1"]`. -/
inductive CpuFreqP2 where
  | int (n : Int)
  | medium
  | high
  | highm1

def CpuFreqP2.toValue : CpuFreqP2 → Value
  | .int n => .vint n
  | .medium => .vstr "medium"
  | .high => .vstr "high"
  | .highm1 => .vstr "highm1"

/-- Third slot of `CpuFreq`: a governor name. -/
inductive CpuFreqP3 where
  | conservative
  | ondemand
  | performance
  | powersave
  | schedutil
  | userspace

def CpuFreqP3.toValue : CpuFreqP3 → Value
  | .conservative => .vstr "Conservative"
  | .ondemand => .vstr "OnDemand"
  | .performance => .vstr "Performance"
  | .powersave => .vstr "PowerSave"
  | .schedutil => .vstr "SchedUtil"
  | .userspace => .vstr "UserSpace"

/-- Dataclass `CpuFreq`. -/
structure CpuFreq where
  p1 : CpuFreqP1
  p2 : Option CpuFreqP2 := none
  p3 : Option CpuFreqP3 := none

/-- Constructor of `CpuFreq` including its `__post_init__` validation. -/
def CpuFreq.make (p1 : CpuFreqP1) (p2 : Option CpuFreqP2) (p3 : Option CpuFreqP3) :
    Except String CpuFreq :=
  match p2, p3 with
  | none, some _ => .error "Invalid cpu freq: p3 is specified without p2"
  | q2, q3 => .ok ⟨p1, q2, q3⟩

def CpuFreq.as_sbatch_str (x : CpuFreq) : String :=
  pyStr x.p1.toValue
    ++ render_optional (optValue CpuFreqP2.toValue x.p2) "-" ""
    ++ render_optional (optValue CpuFreqP3.toValue x.p3) ":" ""

/-- First slot of `Distribution`: `Literal["block","cycle","arbitary"] | int`. -/
inductive DistFirst where
  | block
  | cycle
  | arbitary
  | int (n : Int)

def DistFirst.toValue : DistFirst → Value
  | .block => .vstr "block"
  | .cycle => .vstr "cycle"
  | .arbitary => .vstr "arbitary"
  | .int n => .vint n

/-- Later slots of `Distribution`: `Literal["block","cyclic","fcyclic"]`. -/
inductive DistLevel where
  | block
  | cyclic
  | fcyclic

def DistLevel.toValue : DistLevel → Value
  | .block => .vstr "block"
  | .cyclic => .vstr "cyclic"
  | .fcyclic => .vstr "fcyclic"

/-- Dataclass `Distribution`. -/
structure Distribution where
  first : DistFirst
  second : Option DistLevel := none
  third : Option DistLevel := none
  pack : Bool := false

/-- Constructor of `Distribution` including its `__post_init__` validation. -/
def Distribution.make (first : DistFirst) (second third : Option DistLevel)
    (pack : Bool) : Except String Distribution :=
  match second, third with
  | none, some _ => .error "Invalid distribution: third is specified without second"
  | s, t => .ok ⟨first, s, t, pack⟩

def Distribution.as_sbatch_str (x : Distribution) : String :=
  pyStr x.first.toValue
    ++ render_optional (optValue DistLevel.toValue x.second) ":" ""
    ++ render_optional (optValue DistLevel.toValue x.third) ":" ""
    ++ (if x.pack then ",\x7bPack\x7d" else "")

/-- Dataclass `Duration` (components are Python `int`s). -/
structure Duration where
  days : Int := 0
  hours : Int := 0
  minutes : Int := 0

/-- Constructor of `Duration` including its `__post_init__` validation. -/
def Duration.make (days hours minutes : Int) : Except String Duration :=
  if days == 0 && hours == 0 && minutes == 0 then .error "Zero duration"
  else .ok ⟨days, hours, minutes⟩

def Duration.as_sbatch_str (x : Duration) : String :=
  if x.days == 0 then
    toString x.hours ++ ":" ++ toString x.minutes
  else
    toString x.days ++ "-" ++ toString x.hours ++ ":" ++ toString x.minutes

/-- Value slot of `GpuBind`: `int | list[str]`. -/
inductive GpuBindValue where
  | int (n : Int)
  | list (l : List String)

/-- Dataclass `GpuBind` (field `type_` is deserialized from key `type`). -/
structure GpuBind where
  type_ : String
  value : Option GpuBindValue := none
  verbose : Bool := false

def GpuBind.as_sbatch_str (x : GpuBind) : String :=
  let ret := x.type_
  let ret :=
    match x.value with
    | none => ret
    | some (.list l) => ret ++ ":" ++ String.intercalate "," l
    | some (.int n) => ret ++ ":" ++ toString n
  if x.verbose then "verbose," ++ ret else ret

/-- Dataclass `GpuFreq`. -/
structure GpuFreq where
  value : IntOrStr
  memory : Option IntOrStr := none
  verbose : Bool := false

def GpuFreq.as_sbatch_str (x : GpuFreq) : String :=
  let ret := pyStr x.value.toValue
    ++ render_optional (optValue IntOrStr.toValue x.memory) ",memory=" ""
  if x.verbose then ret ++ ",verbose" else ret

/-- Dataclass `License`. -/
structure License where
  name : String
  db : String := ""
  count : Option Int := none

def License.as_sbatch_str (x : License) : String :=
  x.name
    ++ render_optional (.vstr x.db) "@" ""
    ++ render_optional (optValue Value.vint x.count) "" ""

/-- Dataclass `Mem`. -/
structure Mem where
  size : Int
  unit : String := "M"

def Mem.as_sbatch_str (x : Mem) : String :=
  toString x.size ++ x.unit

/-- Dataclass `Signal`. -/
structure Signal where
  num : IntOrStr
  time : Int := 60
  option : Option String := none

def Signal.as_sbatch_str (x : Signal) : String :=
  render_optional (optValue Value.vstr x.option) "" ":"
    ++ pyStr x.num.toValue ++ "@" ++ toString x.time

/-- Dataclass `Switches`. -/
structure Switches where
  count : Int
  max_time : Option Duration := none

def Switches.as_sbatch_str (x : Switches) : String :=
  match x.max_time with
  | none => toString x.count
  | some d => toString x.count ++ "@" ++ d.as_sbatch_str

/-! ## The `Options` dataclass -/

/-- Union `bool | Literal["off"]` (field `no_kill`). -/
inductive NoKill where
  | b (v : Bool)
  | off

def NoKill.toValue : NoKill → Value
  | .b v => .vbool v
  | .off => .vstr "off"

/-- Union `Literal[...] | list[...]` shape shared by the fields `export`,
`partition` and `profile`. -/
inductive StrOrStrList where
  | str (s : String)
  | list (l : List String)

def StrOrStrList.toValue : StrOrStrList → Value
  | .str s => .vstr s
  | .list l => .vlist (l.map Value.vstr)

/-- Entry of the `gpus` / `gpus_per_node` / `gpus_per_task` lists:
`int | tuple[str, int]`. -/
inductive GpusEntry where
  | int (n : Int)
  | pair (name : String) (count : Int)

def GpusEntry.toValue : GpusEntry → Value
  | .int n => .vint n
  | .pair name count => .vtuple [.vstr name, .vint count]

/-- Entry of the `gres` list: `tuple[str, int] | tuple[str, str, int]`. -/
inductive GresEntry where
  | pair (name : String) (count : Int)
  | triple (name : String) (typ : String) (count : Int)

def GresEntry.toValue : GresEntry → Value
  | .pair name count => .vtuple [.vstr name, .vint count]
  | .triple name typ count => .vtuple [.vstr name, .vstr typ, .vint count]

/-- Slot of `extra_node_info`: `int | Literal["*"]`. -/
inductive StarInt where
  | int (n : Int)
  | star

def StarInt.toValue : StarInt → Value
  | .int n => .vint n
  | .star => .vstr "*"

/-- Field `nodes`: `int | tuple[int, int]`. -/
inductive NodesVal where
  | int (n : Int)
  | range (a b : Int)

def NodesVal.toValue : NodesVal → Value
  | .int n => .vint n
  | .range a b => .vtuple [.vint a, .vint b]

/-- Dataclass `Options`, fields in source declaration order.  `Path` and
`datetime` valued fields carry their `str()` text.  The Python field
named `export` is spelled `export_` here (`export` is a Lean keyword);
its rendering key remains `"export"` in `fieldsOf`. -/
structure Options where
  account : String := ""
  acctg_freq : List AcctgFreq := []
  array : Option Array := none
  batch : String := ""
  bb : String := ""
  bbf : Option String := none
  begin : Option String := none
  chdir : Option String := none
  cluster_constraint : Option ClusterConstraint := none
  clusters : List String := []
  comment : String := ""
  constraint : String := ""
  container : Option String := none
  contiguous : Bool := false
  core_spec : Option Int := none
  cores_per_socket : Option Int := none
  cpu_freq : Option CpuFreq := none
  cpus_per_gpu : Option Int := none
  cpus_per_task : Option Int := none
  deadline : Option String := none
  delay_boot : Option Int := none
  dependency : String := ""
  distribution : Option Distribution := none
  error : String := "\x7b\x7b SBT_LOGFILE_NAME \x7d\x7d.err"
  exclusive : Option String := none
  export_ : Option StrOrStrList := none
  export_file : Option String := none
  extra_node_info : Option (StarInt × StarInt × StarInt) := none
  get_user_env : String := ""
  gid : IntOrStr := .str ""
  gpu_bind : Option GpuBind := none
  gpu_freq : Option GpuFreq := none
  gpus : List GpusEntry := []
  gpus_per_node : List GpusEntry := []
  gpus_per_task : List GpusEntry := []
  gres : List GresEntry := []
  gres_flags : Option String := none
  hint : Option String := none
  hold : Bool := false
  input_ : Option String := none
  job_name : String := "\x7b\x7b SBT_JOB_NAME \x7d\x7d"
  kill_on_invalid_dep : Option String := none
  licenses : List License := []
  mail_type : List String := []
  mail_user : String := ""
  mcs_label : String := ""
  mem : Option Mem := none
  mem_bind : Option String := none
  mem_per_cpu : Option Mem := none
  mincpus : Option Int := none
  network : Option String := none
  nice : Option Int := none
  no_kill : NoKill := .b false
  no_requeue : Bool := false
  node_file : Option String := none
  nodelist : List String := []
  nodes : Option NodesVal := none
  ntasks : Option Int := none
  ntasks_per_core : Option Int := none
  ntasks_per_gpu : Option Int := none
  ntasks_per_node : Option Int := none
  ntasks_per_socket : Option Int := none
  output : String := "\x7b\x7b SBT_LOGFILE_NAME \x7d\x7d.out"
  open_mode : Option String := none
  overcommit : Bool := false
  oversubscribe : Bool := false
  parsable : Bool := false
  partition : StrOrStrList := .str ""
  power : List String := []
  prefer : List String := []
  priority : Option IntOrStr := none
  profile : StrOrStrList := .list []
  propagate : List String := []
  qos : Option Int := none
  quiet : Bool := false
  requeue : Bool := false
  reservation : List String := []
  signal : Option Signal := none
  sockets_per_node : Option Int := none
  spread_job : Bool := false
  switches : Option Switches := none
  thread_spec : Option Int := none
  threads_per_core : Option Int := none
  time : Option Duration := none
  time_min : Option Duration := none
  tmp : Option Mem := none
  uid : IntOrStr := .str ""
  use_min_nodes : Bool := false
  verbose : Bool := false
  wait_all_nodes : Bool := false
  wckey : String := ""

/-- View of an `Options` instance as `dataclasses.fields` sees it: the
field names in declaration order, each value injected into `Value`. -/
def fieldsOf (o : Options) : List (String × Value) :=
  [("account", .vstr o.account),
   ("acctg_freq", .vlist (o.acctg_freq.map (fun a => .vobj a.as_sbatch_str))),
   ("array", optValue (fun a => .vobj a.as_sbatch_str) o.array),
   ("batch", .vstr o.batch),
   ("bb", .vstr o.bb),
   ("bbf", optValue Value.vraw o.bbf),
   ("begin", optValue Value.vraw o.begin),
   ("chdir", optValue Value.vraw o.chdir),
   ("cluster_constraint", optValue (fun c => .vobj c.as_sbatch_str) o.cluster_constraint),
   ("clusters", .vlist (o.clusters.map Value.vstr)),
   ("comment", .vstr o.comment),
   ("constraint", .vstr o.constraint),
   ("container", optValue Value.vraw o.container),
   ("contiguous", .vbool o.contiguous),
   ("core_spec", optValue Value.vint o.core_spec),
   ("cores_per_socket", optValue Value.vint o.cores_per_socket),
   ("cpu_freq", optValue (fun c => .vobj c.as_sbatch_str) o.cpu_freq),
   ("cpus_per_gpu", optValue Value.vint o.cpus_per_gpu),
   ("cpus_per_task", optValue Value.vint o.cpus_per_task),
   ("deadline", optValue Value.vraw o.deadline),
   ("delay_boot", optValue Value.vint o.delay_boot),
   ("dependency", .vstr o.dependency),
   ("distribution", optValue (fun d => .vobj d.as_sbatch_str) o.distribution),
   ("error", .vstr o.error),
   ("exclusive", optValue Value.vstr o.exclusive),
   ("export", optValue StrOrStrList.toValue o.export_),
   ("export_file", optValue Value.vraw o.export_file),
   ("extra_node_info",
     optValue (fun t => .vtuple [t.1.toValue, t.2.1.toValue, t.2.2.toValue]) o.extra_node_info),
   ("get_user_env", .vstr o.get_user_env),
   ("gid", o.gid.toValue),
   ("gpu_bind", optValue (fun g => .vobj g.as_sbatch_str) o.gpu_bind),
   ("gpu_freq", optValue (fun g => .vobj g.as_sbatch_str) o.gpu_freq),
   ("gpus", .vlist (o.gpus.map GpusEntry.toValue)),
   ("gpus_per_node", .vlist (o.gpus_per_node.map GpusEntry.toValue)),
   ("gpus_per_task", .vlist (o.gpus_per_task.map GpusEntry.toValue)),
   ("gres", .vlist (o.gres.map GresEntry.toValue)),
   ("gres_flags", optValue Value.vstr o.gres_flags),
   ("hint", optValue Value.vstr o.hint),
   ("hold", .vbool o.hold),
   ("input_", optValue Value.vraw o.input_),
   ("job_name", .vstr o.job_name),
   ("kill_on_invalid_dep", optValue Value.vstr o.kill_on_invalid_dep),
   ("licenses", .vlist (o.licenses.map (fun l => .vobj l.as_sbatch_str))),
   ("mail_type", .vlist (o.mail_type.map Value.vstr)),
   ("mail_user", .vstr o.mail_user),
   ("mcs_label", .vstr o.mcs_label),
   ("mem", optValue (fun m => .vobj m.as_sbatch_str) o.mem),
   ("mem_bind", optValue Value.vstr o.mem_bind),
   ("mem_per_cpu", optValue (fun m => .vobj m.as_sbatch_str) o.mem_per_cpu),
   ("mincpus", optValue Value.vint o.mincpus),
   ("network", optValue Value.vstr o.network),
   ("nice", optValue Value.vint o.nice),
   ("no_kill", o.no_kill.toValue),
   ("no_requeue", .vbool o.no_requeue),
   ("node_file", optValue Value.vraw o.node_file),
   ("nodelist", .vlist (o.nodelist.map Value.vstr)),
   ("nodes", optValue NodesVal.toValue o.nodes),
   ("ntasks", optValue Value.vint o.ntasks),
   ("ntasks_per_core", optValue Value.vint o.ntasks_per_core),
   ("ntasks_per_gpu", optValue Value.vint o.ntasks_per_gpu),
   ("ntasks_per_node", optValue Value.vint o.ntasks_per_node),
   ("ntasks_per_socket", optValue Value.vint o.ntasks_per_socket),
   ("output", .vstr o.output),
   ("open_mode", optValue Value.vstr o.open_mode),
   ("overcommit", .vbool o.overcommit),
   ("oversubscribe", .vbool o.oversubscribe),
   ("parsable", .vbool o.parsable),
   ("partition", o.partition.toValue),
   ("power", .vlist (o.power.map Value.vstr)),
   ("prefer", .vlist (o.prefer.map Value.vstr)),
   ("priority", optValue IntOrStr.toValue o.priority),
   ("profile", o.profile.toValue),
   ("propagate", .vlist (o.propagate.map Value.vstr)),
   ("qos", optValue Value.vint o.qos),
   ("quiet", .vbool o.quiet),
   ("requeue", .vbool o.requeue),
   ("reservation", .vlist (o.reservation.map Value.vstr)),
   ("signal", optValue (fun s => .vobj s.as_sbatch_str) o.signal),
   ("sockets_per_node", optValue Value.vint o.sockets_per_node),
   ("spread_job", .vbool o.spread_job),
   ("switches", optValue (fun s => .vobj s.as_sbatch_str) o.switches),
   ("thread_spec", optValue Value.vint o.thread_spec),
   ("threads_per_core", optValue Value.vint o.threads_per_core),
   ("time", optValue (fun d => .vobj d.as_sbatch_str) o.time),
   ("time_min", optValue (fun d => .vobj d.as_sbatch_str) o.time_min),
   ("tmp", optValue (fun m => .vobj m.as_sbatch_str) o.tmp),
   ("uid", o.uid.toValue),
   ("use_min_nodes", .vbool o.use_min_nodes),
   ("verbose", .vbool o.verbose),
   ("wait_all_nodes", .vbool o.wait_all_nodes),
   ("wckey", .vstr o.wckey)]

/-! ## The option renderer (`render_options` and helpers) -/

/-- Element rendering inside the generic list/tuple branch of
`_render_value`: `v.as_sbatch_str() if hasattr(v, "as_sbatch_str") else str(v)`. -/
def elemStr : Value → String
  | .vobj s => s
  | v => pyStr v

/-- Custom renderer `_render_gpus`. -/
def render_gpus (v : Value) : String :=
  match v with
  | .vlist l =>
    "=" ++ String.intercalate ","
      (l.map (fun e =>
        match e with
        | .vtuple (a :: b :: _) => pyStr a ++ ":" ++ pyStr b
        | x => pyStr x))
  | x => "=" ++ pyStr x

/-- Custom renderer `_render_gres`. -/
def render_gres (v : Value) : String :=
  match v with
  | .vlist l =>
    "=" ++ String.intercalate ","
      (l.map (fun e =>
        match e with
        | .vtuple parts => String.intercalate ":" (parts.map pyStr)
        | x => pyStr x))
  | x => "=" ++ pyStr x

/-- Custom renderer `_render_no_kill`. -/
def render_no_kill (v : Value) : String :=
  match v with
  | .vstr "off" => "=off"
  | _ => ""

/-- Custom renderer `_render_nodes`. -/
def render_nodes (v : Value) : String :=
  match v with
  | .vtuple (a :: b :: _) => "=" ++ pyStr a ++ "-" ++ pyStr b
  | x => "=" ++ pyStr x

/-- Custom renderer for `extra_node_info` (the lambda in
`_CUSTOM_RENDER_FUNCTIONS`); note it emits no `=`. -/
def render_extra_node_info (v : Value) : String :=
  match v with
  | .vtuple parts => String.intercalate ":" (parts.map pyStr)
  | x => pyStr x

/-- Custom renderer for `wait_all_nodes` (the lambda
`str(int(value))`); note it emits no `=`. -/
def render_wait_all_nodes (v : Value) : String :=
  match v with
  | .vbool b => if b then "1" else "0"
  | x => pyStr x

/-- Lookup in the `_CUSTOM_RENDER_FUNCTIONS` table. -/
def customRender? (key : String) : Option (Value → String) :=
  if key == "extra_node_info" then some render_extra_node_info
  else if key == "gpus" then some render_gpus
  else if key == "gpus_per_node" then some render_gpus
  else if key == "gpus_per_task" then some render_gpus
  else if key == "gres" then some render_gres
  else if key == "no_kill" then some render_no_kill
  else if key == "nodes" then some render_nodes
  else if key == "wait_all_nodes" then some render_wait_all_nodes
  else none

/-- Python `key.replace("_", "-")`: the pattern is the single character
`_`, so the replacement is the character-wise map. -/
def kebab (key : String) : String :=
  String.mk (key.data.map (fun c => if c = '_' then '-' else c))

/-- Function `_render_key`: `"--" + key.replace("_", "-")`. -/
def render_key (key : String) : String :=
  "--" ++ kebab key

/-- Function `_render_value`: custom table first, then `as_sbatch_str`
objects, then lists/tuples, then the boolean bare-flag case, then the
default `f"=\x7bvalue\x7d"`. -/
def render_value (key : String) (value : Value) : String :=
  match customRender? key with
  | some f => f value
  | none =>
    match value with
    | .vobj s => "=" ++ s
    | .vlist l => "=" ++ String.intercalate "," (l.map elemStr)
    | .vtuple l => "=" ++ String.intercalate "," (l.map elemStr)
    | .vbool _ => ""
    | v => "=" ++ pyStr v

/-- The `res` list built by the loop in `render_options`: one directive
line appended per non-empty field, in declaration order. -/
def linesOf (o : Options) : List String :=
  (fieldsOf o).foldl
    (fun res kv =>
      if !(is_empty kv.2) then
        res ++ ["#SBATCH " ++ render_key kv.1 ++ render_value kv.1 kv.2]
      else res)
    []

/-- Function `render_options`. -/
def render_options (o : Options) : String :=
  let res := linesOf o
  let rendered := String.intercalate "\n" res
  if res.length != 0 then "\n" ++ rendered ++ "\n" else rendered

/-- Attribute access `getattr(options, key)` through the dynamic field
view (first matching field name). -/
def getField (o : Options) (key : String) : Option Value :=
  ((fieldsOf o).find? (fun kv => kv.1 == key)).map (fun kv => kv.2)

/-- Fields that survive the `is_empty` filter, in declaration order. -/
def nonEmptyFields (o : Options) : List (String × Value) :=
  (fieldsOf o).filter (fun kv => !(is_empty kv.2))

/-- An `Options` with every field at its dataclass default. -/
def defaultOptions : Options := {}

/-- An entirely empty `Options`: the three string fields whose dataclass
defaults are non-empty are blanked. -/
def emptyOptions : Options :=
  { defaultOptions with error := "", job_name := "", output := "" }

/-- The fields of `Options` whose declared type is exactly `bool`,
except `wait_all_nodes` (which has a custom renderer). -/
def bareBoolFields : List String :=
  ["contiguous", "hold", "no_requeue", "overcommit", "oversubscribe",
   "parsable", "quiet", "requeue", "spread_job", "use_min_nodes", "verbose"]

/-- Lookup in the merge described by claim C1 (`defaults` merged with the
matrix combination `pairs` and the `overrides`, overrides winning):
written from the specification text, for comparison with
`variables_iter`. -/
def specLookup (dv ov pairs : Dict) (k : String) : Option Val :=
  match dictGet? ov k with
  | some v => some v
  | none =>
    match dictGet? pairs k with
    | some v => some v
    | none => dictGet? dv k

/-! ## Script assembly, placeholder reporting and the render loop
(`render` and `_prompt` in `sbt/config.py`)

The assembled script (shebang + directive block + optional timestamp +
template body, as produced by `get_environment`) is modelled as a token
list: Jinja's parse of the script separates literal text from
`\x7b\x7b name \x7d\x7d` placeholders.  `rich.prompt.Confirm.ask` is an
external interactive read; its reply for the i-th variable set is
supplied as an oracle `ans : Nat → Bool`.  `exit(0)` is modelled by the
`aborted` flag of `renderLoop`'s result: once it is set, no further
pair is produced. -/

inductive Tok where
  | lit (s : String)
  | var (name : String)

/-- An assembled script, as Jinja sees it. -/
abbrev Template := List Tok

/-- Set `jinja2.meta.find_undeclared_variables(env.parse(script))`: the
placeholder names of the script (a list queried only through membership
and emptiness, standing for the Python set). -/
def templateVarNames (t : Template) : List String :=
  t.filterMap (fun tok =>
    match tok with
    | .var n => some n
    | .lit _ => none)

/-- Difference `template_variables - given_variables` computed by `_prompt`. -/
def missingVars (t : Template) (given : List String) : List String :=
  (templateVarNames t).filter (fun n => !(given.contains n))

/-- Difference `given_variables - template_variables` computed by `_prompt`. -/
def unusedVars (t : Template) (given : List String) : List String :=
  given.filter (fun n => !((templateVarNames t).contains n))

/-- Boolean result of `_prompt`: when either difference is non-empty the
user is asked to confirm (reply `ans`); otherwise the function returns
`True` without asking. -/
def promptResult (t : Template) (given : List String) (ans : Bool) : Bool :=
  if (missingVars t given).length > 0 then ans
  else if (unusedVars t given).length > 0 then ans
  else true

/-- Single-pass Jinja substitution of a variable set into the script;
an unresolved placeholder renders as the empty string (Jinja's default
`Undefined`), never as an exception. -/
def renderTemplate : Template → Dict → String
  | [], _ => ""
  | .lit s :: rest, vars => s ++ renderTemplate rest vars
  | .var n :: rest, vars => ((dictGet? vars n).getD "") ++ renderTemplate rest vars

/-- Body of the per-variable-set loop in `render`.  For each variable
set: restrict to the overridden keys, derive the job name, inject
`SBT_JOB_NAME` and `SBT_LOGFILE_NAME`, optionally prompt (aborting the
whole process on a declined confirmation, as `exit(0)` does), then
substitute.  Returns the yielded `(script, job name)` pairs and whether
the loop aborted. -/
def renderLoop (cfg : Config) (script : Template) (stem logdirAbs : String)
    (showPrompt : Bool) (ans : Nat → Bool) :
    List Dict → Nat → List (String × String) × Bool
  | [], _ => ([], false)
  | vars :: rest, i =>
    let overrides := vars.filter (fun kv => cfg.is_overriden_key kv.1)
    let job_name := stem ++ "-" ++ override_name overrides
    let vars := setKey (setKey vars "SBT_JOB_NAME" job_name)
      "SBT_LOGFILE_NAME" (logdirAbs ++ "/" ++ job_name)
    if showPrompt && !(promptResult script (vars.map Prod.fst) (ans i)) then
      ([], true)
    else
      let next := renderLoop cfg script stem logdirAbs showPrompt ans rest (i + 1)
      ((renderTemplate script vars, job_name) :: next.1, next.2)

/-- Function `render` of `sbt/config.py`, specialised to the parts the
claims concern: the variable sets come from `variables_iter`, and each
surviving set yields a `(rendered script, job name)` pair.  `logdirAbs`
stands for `config.logdir.absolute().as_posix()`. -/
def renderModel (cfg : Config) (script : Template) (stem logdirAbs : String)
    (cli_options : Dict) (showPrompt : Bool) (ans : Nat → Bool) :
    List (String × String) × Bool :=
  renderLoop cfg script stem logdirAbs showPrompt ans
    (cfg.variables_iter cli_options) 0

/-! ## Dictionary lemmas -/

theorem dictGet?_setKey (d : Dict) (k : String) (v : Val) (k' : String) :
    dictGet? (setKey d k v) k' = if k' = k then some v else dictGet? d k' := by
  induction d with
  | nil =>
    by_cases h : k' = k
    · simp [setKey, dictGet?, h]
    · have h' : ¬ k = k' := fun hk => h hk.symm
      simp [setKey, dictGet?, h, h']
  | cons kv rest ih =>
    by_cases h1 : kv.1 = k
    · by_cases h2 : k' = k
      · simp [setKey, dictGet?, beq_iff_eq, h1, h2]
      · have h2' : ¬ k = k' := fun hk => h2 hk.symm
        have h3 : ¬ kv.1 = k' := h1 ▸ h2'
        simp [setKey, dictGet?, beq_iff_eq, h1, h2, h2', h3]
    · by_cases h2 : kv.1 = k'
      · have hne : ¬ k' = k := fun hk => h1 (h2.trans hk)
        simp [setKey, dictGet?, beq_iff_eq, h1, h2, hne]
      · simp [setKey, dictGet?, beq_iff_eq, h1, h2, ih]

theorem dictContains_iff (d : Dict) (k : String) :
    dictContains d k = true ↔ k ∈ d.map Prod.fst := by
  induction d with
  | nil => simp [dictContains]
  | cons kv rest ih =>
    simp only [dictContains, Bool.or_eq_true, beq_iff_eq, ih, List.map_cons,
      List.mem_cons]
    exact or_congr ⟨fun h => h.symm, fun h => h.symm⟩ Iff.rfl

theorem dictGet?_eq_none_of_contains_eq_false (d : Dict) (k : String)
    (h : dictContains d k = false) : dictGet? d k = none := by
  induction d with
  | nil => rfl
  | cons kv rest ih =>
    simp [dictContains, Bool.or_eq_false_iff] at h
    simp [dictGet?, h.1, ih h.2]

theorem mem_keys_of_dictGet?_eq_some {d : Dict} {k : String} {v : Val}
    (h : dictGet? d k = some v) : k ∈ d.map Prod.fst := by
  induction d with
  | nil => simp [dictGet?] at h
  | cons kv rest ih =>
    by_cases h1 : kv.1 = k
    · simp [h1]
    · simp [dictGet?, h1] at h
      simp [ih h]

theorem dictGet?_pyMerge (a : Dict) (b : Dict) (k : String)
    (hb : (b.map Prod.fst).Nodup) :
    dictGet? (pyMerge a b) k = (dictGet? b k).or (dictGet? a k) := by
  induction b generalizing a with
  | nil => simp [pyMerge, dictGet?]
  | cons kv rest ih =>
    simp only [List.map_cons, List.nodup_cons] at hb
    have step : pyMerge a (kv :: rest) = pyMerge (setKey a kv.1 kv.2) rest := rfl
    rw [step, ih _ hb.2]
    by_cases h : kv.1 = k
    · have hnone : dictGet? rest k = none := by
        apply dictGet?_eq_none_of_contains_eq_false
        cases hcv : dictContains rest k with
        | false => rfl
        | true =>
          exact absurd ((dictContains_iff rest k).mp hcv) (h ▸ hb.1)
      simp [dictGet?, beq_iff_eq, h, hnone, dictGet?_setKey]
    · have h' : ¬ k = kv.1 := fun hk => h hk.symm
      simp [dictGet?, beq_iff_eq, h, h', dictGet?_setKey]

/-! ## Cartesian product lemmas -/

theorem prodList_length (ls : List (List Val)) :
    (prodList ls).length = (ls.map List.length).prod := by
  induction ls with
  | nil => rfl
  | cons l ls ih =>
    simp only [prodList, List.length_flatMap, List.map_cons, List.prod_cons]
    have h1 : (List.length ∘ fun x => List.map (fun c => x :: c) (prodList ls))
        = Function.const Val (prodList ls).length := by
      funext x; simp [Function.const]
    rw [h1, List.map_const, List.sum_replicate, smul_eq_mul, ih]

theorem length_of_mem_prodList {ls : List (List Val)} {c : List Val}
    (h : c ∈ prodList ls) : c.length = ls.length := by
  induction ls generalizing c with
  | nil => simp [prodList] at h; simp [h]
  | cons l ls ih =>
    simp only [prodList, List.mem_flatMap, List.mem_map] at h
    obtain ⟨x, _, c', hc', rfl⟩ := h
    simp [ih hc']

theorem mem_zip_map {α β : Type} (f : α → β) (l : List α) (p : β × α)
    (h : p ∈ (l.map f).zip l) : p.1 = f p.2 ∧ p.2 ∈ l := by
  induction l with
  | nil => simp at h
  | cons a l ih =>
    simp only [List.map_cons, List.zip_cons_cons, List.mem_cons] at h
    rcases h with h | h
    · simp [h]
    · exact ⟨(ih h).1, List.mem_cons_of_mem _ (ih h).2⟩

/-! ## Variable resolution (claim C1) -/

theorem variables_iter_eq (cfg : Config) (ov : Dict) :
    cfg.variables_iter ov =
      (prodList ((cfg.matrix.filter (fun kv => !(dictContains ov kv.1))).map
        Prod.snd)).map
        (fun combo =>
          pyMerge (pyMerge cfg.default_values ov)
            (((cfg.matrix.filter (fun kv => !(dictContains ov kv.1))).map
              Prod.fst).zip combo)) := by
  unfold Config.variables_iter
  cases h : cfg.matrix.filter (fun kv => !(dictContains ov kv.1)) with
  | nil => simp [prodList, pyMerge]
  | cons a l => simp [pyMerge]

/-- C1: the Variable Resolver yields exactly one variable set per element
of the Cartesian product over the matrix keys not pinned by an override,
in declared key order using declared candidate order; every yielded set
looks up as defaults merged with the matrix combination and the
overrides, overrides winning; with no matrix keys left it yields exactly
one set; and the concrete `\x7bfoo: [a,b], bar: [x,y]\x7d` matrix with no
overrides yields the four sets in order `(a,x),(a,y),(b,x),(b,y)`. -/
theorem c1_variables_iter (dv : Dict) (mx : List (String × List Val)) (ov : Dict)
    (hmx : (mx.map Prod.fst).Nodup) (hov : (ov.map Prod.fst).Nodup) :
    ((Config.variables_iter ⟨dv, mx⟩ ov).length
        = (((mx.filter (fun kv => !(dictContains ov kv.1))).map Prod.snd).map
            List.length).prod)
    ∧ (mx.filter (fun kv => !(dictContains ov kv.1)) = [] →
        Config.variables_iter ⟨dv, mx⟩ ov = [pyMerge dv ov])
    ∧ (∀ p ∈ (Config.variables_iter ⟨dv, mx⟩ ov).zip
          (prodList ((mx.filter (fun kv => !(dictContains ov kv.1))).map Prod.snd)),
        ∀ k, dictGet? p.1 k
          = specLookup dv ov
              (((mx.filter (fun kv => !(dictContains ov kv.1))).map Prod.fst).zip p.2)
              k)
    ∧ (Config.variables_iter ⟨[], [("foo", ["a", "b"]), ("bar", ["x", "y"])]⟩ []
        = [[("foo", "a"), ("bar", "x")], [("foo", "a"), ("bar", "y")],
           [("foo", "b"), ("bar", "x")], [("foo", "b"), ("bar", "y")]]) := by
  refine ⟨?_, ?_, ?_, ?_⟩
  · rw [variables_iter_eq, List.length_map, prodList_length]
  · intro h
    rw [variables_iter_eq, h]
    simp [prodList, pyMerge]
  · intro p hp k
    rw [variables_iter_eq] at hp
    obtain ⟨hfst, hmem⟩ := mem_zip_map _ _ p hp
    rw [hfst]
    have hlen : p.2.length
        = ((mx.filter (fun kv => !(dictContains ov kv.1))).map Prod.fst).length := by
      rw [length_of_mem_prodList hmem, List.length_map, List.length_map]
    have hkeys :
        (((mx.filter (fun kv => !(dictContains ov kv.1))).map Prod.fst).zip p.2).map
          Prod.fst
        = (mx.filter (fun kv => !(dictContains ov kv.1))).map Prod.fst :=
      List.map_fst_zip _ _ (le_of_eq hlen.symm)
    have hnodup :
        ((((mx.filter (fun kv => !(dictContains ov kv.1))).map Prod.fst).zip p.2).map
          Prod.fst).Nodup := by
      rw [hkeys]
      exact hmx.sublist ((List.filter_sublist mx).map Prod.fst)
    rw [dictGet?_pyMerge _ _ _ hnodup, dictGet?_pyMerge _ _ _ hov]
    cases hpk : dictGet?
        ((((mx.filter (fun kv => !(dictContains ov kv.1))).map Prod.fst).zip p.2)) k with
    | some w =>
      have hk_mem : k ∈ (mx.filter (fun kv => !(dictContains ov kv.1))).map Prod.fst := by
        have := mem_keys_of_dictGet?_eq_some hpk
        rwa [hkeys] at this
      obtain ⟨kv, hkv_mem, hkv_eq⟩ := List.mem_map.mp hk_mem
      have hnc : dictContains ov kv.1 = false := by
        have := (List.mem_filter.mp hkv_mem).2
        cases hcv : dictContains ov kv.1 with
        | false => rfl
        | true => rw [hcv] at this; exact absurd this (by simp)
      have hov_none : dictGet? ov k = none := by
        apply dictGet?_eq_none_of_contains_eq_false
        rw [← hkv_eq]
        exact hnc
      simp [specLookup, hpk, hov_none]
    | none =>
      cases hovk : dictGet? ov k with
      | some v => simp [specLookup, hpk, hovk]
      | none => simp [specLookup, hpk, hovk]
  · rfl

/-- Witness for C1 at a concrete configuration. -/
theorem c1_variables_iter_witness :
    (Config.variables_iter ⟨[], [("foo", ["a", "b"]), ("bar", ["x", "y"])]⟩ []).length
      = 4 := by
  have h := c1_variables_iter [] [("foo", ["a", "b"]), ("bar", ["x", "y"])] []
    (by decide) (by decide)
  exact h.1.trans (by rfl)

/-! ## Job naming (claim C4) -/

theorem sanitize_append (a b : String) :
    sanitize (a ++ b) = sanitize a ++ sanitize b := by
  apply String.ext
  simp [sanitize, String.data_append]

/-- C4 counterexample: the code sanitizes the whole `key-value` string,
so a key containing a character outside `[A-Za-z0-9|_-]` is sanitized
too, while the claim's formula leaves keys verbatim. -/
theorem c4_counterexample :
    jobName "base" [("a.b", "1")] = "base-a-b-1"
    ∧ specJobName "base" [("a.b", "1")] = "base-a.b-1"
    ∧ jobName "base" [("a.b", "1")] ≠ specJobName "base" [("a.b", "1")] := by
  refine ⟨rfl, rfl, ?_⟩
  decide

/-- C4 amended: the job name is `<base>-default` for an empty override
set and otherwise `<base>-` followed by `<sanitized-key>-<sanitized-value>`
pairs joined by `-` in iteration order — sanitization applies to keys as
well as values. -/
theorem c4_amended (stem : String) (ov : Dict) :
    jobName stem ov
      = stem ++ "-" ++
        (if ov.length == 0 then "default"
         else String.intercalate "-"
           (ov.map (fun kv => sanitize kv.1 ++ "-" ++ sanitize kv.2))) := by
  have hfun : (fun kv : String × Val => render_kv kv.1 kv.2)
      = fun kv => sanitize kv.1 ++ "-" ++ sanitize kv.2 := by
    funext kv
    unfold render_kv
    rw [sanitize_append, sanitize_append]
    rfl
  unfold jobName override_name
  rw [hfun]

/-! ## Overridden keys (claim C5) -/

/-- C5: a key counts as overridden iff it is a matrix key (pinned or
not) or absent from the default-variables mapping. -/
theorem c5_is_overriden_key (cfg : Config) (key : String) :
    cfg.is_overriden_key key = true ↔
      (key ∈ cfg.matrix.map Prod.fst ∨ key ∉ cfg.default_values.map Prod.fst) := by
  unfold Config.is_overriden_key
  rw [Bool.or_eq_true]
  apply or_congr
  · rw [List.any_eq_true]
    constructor
    · rintro ⟨kv, hm, he⟩
      exact List.mem_map.mpr ⟨kv, hm, beq_iff_eq.mp he⟩
    · intro hm
      obtain ⟨kv, hm', he⟩ := List.mem_map.mp hm
      exact ⟨kv, hm', beq_iff_eq.mpr he⟩
  · rw [Bool.not_eq_true']
    constructor
    · intro h hmem
      rw [(dictContains_iff _ _).mpr hmem] at h
      simp at h
    · intro h
      cases hc : dictContains cfg.default_values key with
      | false => rfl
      | true => exact absurd ((dictContains_iff _ _).mp hc) h

/-! ## Composite construction (claims C8, C3, C7) -/

/-- C8: a later part set while its predecessor is unset always fails
construction, both for `CpuFreq` (p3 without p2) and for `Distribution`
(third without second). -/
theorem c8_dependent_tail :
    (∀ (p1 : CpuFreqP1) (p3v : CpuFreqP3),
        CpuFreq.make p1 none (some p3v)
          = Except.error "Invalid cpu freq: p3 is specified without p2")
    ∧ (∀ (f : DistFirst) (tv : DistLevel) (pk : Bool),
        Distribution.make f none (some tv) pk
          = Except.error "Invalid distribution: third is specified without second") :=
  ⟨fun _ _ => rfl, fun _ _ _ => rfl⟩

/-- C3: an all-zero duration fails construction; a constructed duration
renders as `days-hours:minutes` when days > 0 and as `hours:minutes`
when days = 0; `\x7bhours=12, minutes=30\x7d` gives `12:30` and
`\x7bdays=1\x7d` the day-prefixed `1-0:0`. -/
theorem c3_duration :
    (Duration.make 0 0 0 = Except.error "Zero duration")
    ∧ (∀ (d h m : Int) (dur : Duration), Duration.make d h m = Except.ok dur →
        dur.days = 0 →
        dur.as_sbatch_str = toString dur.hours ++ ":" ++ toString dur.minutes)
    ∧ (∀ (d h m : Int) (dur : Duration), Duration.make d h m = Except.ok dur →
        0 < dur.days →
        dur.as_sbatch_str
          = toString dur.days ++ "-" ++ toString dur.hours ++ ":"
              ++ toString dur.minutes)
    ∧ (∃ dur : Duration, Duration.make 0 12 30 = Except.ok dur
        ∧ dur.as_sbatch_str = "12:30" ∧ dur.days = 0)
    ∧ (∃ dur : Duration, Duration.make 1 0 0 = Except.ok dur
        ∧ dur.as_sbatch_str = "1-0:0" ∧ 0 < dur.days) := by
  refine ⟨rfl, ?_, ?_, ⟨⟨0, 12, 30⟩, rfl, rfl, rfl⟩, ⟨⟨1, 0, 0⟩, rfl, rfl, by decide⟩⟩
  · intro d h m dur _ hd
    simp [Duration.as_sbatch_str, hd]
  · intro d h m dur _ hd
    have hne : ¬ dur.days = 0 := by omega
    simp [Duration.as_sbatch_str, hne]

/-- Witness for C3's conditional clauses at concrete durations. -/
theorem c3_duration_witness :
    Duration.as_sbatch_str ⟨0, 5, 7⟩ = "5:7"
    ∧ Duration.as_sbatch_str ⟨2, 3, 4⟩ = "2-3:4" := by
  constructor
  · exact (c3_duration.2.1 0 5 7 ⟨0, 5, 7⟩ rfl rfl).trans (by rfl)
  · exact (c3_duration.2.2.1 2 3 4 ⟨2, 3, 4⟩ rfl (by decide)).trans (by rfl)

/-- C7: `Array` construction fails exactly when both representations are
given, neither is given, or a range of length other than 2 or 3 is
given; a successful construction stores the inputs and has exactly one
representation set. -/
theorem c7_array (v r : List Int) (mp : Option Int) :
    ((∃ e, Array.make v r mp = Except.error e) ↔
      ((v ≠ [] ∧ r ≠ []) ∨ (v = [] ∧ r = []) ∨
        (r ≠ [] ∧ r.length ≠ 2 ∧ r.length ≠ 3)))
    ∧ (∀ a, Array.make v r mp = Except.ok a →
        (a.values = v ∧ a.range_ = r ∧ (a.values = [] ↔ a.range_ ≠ []))) := by
  unfold Array.make
  dsimp only
  split_ifs with h1 h2 h3
  · simp only [Bool.and_eq_true, beq_iff_eq] at h1
    refine ⟨⟨fun _ => Or.inr (Or.inl ⟨List.length_eq_zero.mp h1.1,
      List.length_eq_zero.mp h1.2⟩), fun _ => ⟨_, rfl⟩⟩, ?_⟩
    intro a ha
    simp at ha
  · simp only [Bool.and_eq_true, decide_eq_true_eq] at h2
    refine ⟨⟨fun _ => Or.inl ⟨List.length_pos.mp h2.1, List.length_pos.mp h2.2⟩,
      fun _ => ⟨_, rfl⟩⟩, ?_⟩
    intro a ha
    simp at ha
  · simp only [Bool.or_eq_true, beq_iff_eq, decide_eq_true_eq] at h3
    refine ⟨⟨fun _ => Or.inr (Or.inr ⟨?_, by omega, by omega⟩),
      fun _ => ⟨_, rfl⟩⟩, ?_⟩
    · apply List.length_pos.mp
      omega
    · intro a ha
      simp at ha
  · simp only [Bool.and_eq_true, beq_iff_eq, decide_eq_true_eq, not_and,
      Bool.or_eq_true, not_or] at h1 h2 h3
    constructor
    · constructor
      · rintro ⟨e, he⟩
        simp at he
      · intro hrhs
        exfalso
        rcases hrhs with ⟨hv, hr⟩ | ⟨hv, hr⟩ | ⟨hr, h2', h3'⟩
        · exact absurd (List.length_pos.mpr hr)
            (by have := h2 (List.length_pos.mpr hv); omega)
        · exact h1 (List.length_eq_zero.mpr hv) (List.length_eq_zero.mpr hr)
        · have hr0 : r.length ≠ 0 := fun h0 => hr (List.length_eq_zero.mp h0)
          omega
    · intro a ha
      have ha' : a = ⟨v, r, mp⟩ := by
        cases ha
        rfl
      subst ha'
      dsimp only
      refine ⟨rfl, rfl, ?_⟩
      constructor
      · intro hv hr
        exact h1 (List.length_eq_zero.mpr hv) (List.length_eq_zero.mpr hr)
      · intro hr
        by_contra hv
        have hvp := h2 (List.length_pos.mpr hv)
        have hrp : 0 < r.length := List.length_pos.mpr hr
        omega

/-- Witness for C7 at concrete arrays: a values-only array constructs
and keeps its inputs, and the all-missing array fails. -/
theorem c7_array_witness :
    ((⟨[1, 2], [], some 3⟩ : Array).values = [1, 2]
      ∧ (⟨[1, 2], [], some 3⟩ : Array).range_ = []
      ∧ ((⟨[1, 2], [], some 3⟩ : Array).values = []
          ↔ (⟨[1, 2], [], some 3⟩ : Array).range_ ≠ []))
    ∧ (∃ e, Array.make [] [] none = Except.error e) := by
  constructor
  · exact (c7_array [1, 2] [] (some 3)).2 ⟨[1, 2], [], some 3⟩ rfl
  · exact (c7_array [] [] none).1.mpr (Or.inr (Or.inl ⟨rfl, rfl⟩))

/-! ## Placeholder reporting and the render loop (claim C6) -/

theorem renderLoop_no_prompt (cfg : Config) (script : Template)
    (stem logdir : String) (ans : Nat → Bool) :
    ∀ (sets : List Dict) (i : Nat),
      (renderLoop cfg script stem logdir false ans sets i).2 = false
      ∧ (renderLoop cfg script stem logdir false ans sets i).1.length
          = sets.length := by
  intro sets
  induction sets with
  | nil => intro i; exact ⟨rfl, rfl⟩
  | cons vs rest ih =>
    intro i
    simp only [renderLoop, Bool.false_and, Bool.false_eq_true, if_false,
      List.length_cons]
    exact ⟨(ih (i + 1)).1, by rw [(ih (i + 1)).2]⟩

theorem renderLoop_abort_imp (cfg : Config) (script : Template)
    (stem logdir : String) (sp : Bool) (ans : Nat → Bool) :
    ∀ (sets : List Dict) (i : Nat),
      (renderLoop cfg script stem logdir sp ans sets i).2 = true → sp = true := by
  intro sets
  induction sets with
  | nil =>
    intro i h
    simp [renderLoop] at h
  | cons vs rest ih =>
    intro i h
    rw [renderLoop] at h
    split at h
    · rename_i hc
      simp only [Bool.and_eq_true] at hc
      exact hc.1
    · exact ih (i + 1) h

theorem renderTemplate_append (t1 t2 : Template) (vars : Dict) :
    renderTemplate (t1 ++ t2) vars
      = renderTemplate t1 vars ++ renderTemplate t2 vars := by
  induction t1 with
  | nil => simp [renderTemplate]
  | cons tok rest ih =>
    cases tok <;> simp [renderTemplate, ih, String.append_assoc]

/-- C6 counterexample: with prompting enabled, a template placeholder
missing from the variable set and a declined confirmation, the render
loop itself aborts (the code's `exit(0)`), so the component does decide
to abort the process. -/
theorem c6_counterexample :
    (renderModel ⟨[], []⟩ [Tok.var "x"] "job" "/log" [] true (fun _ => false)).2
      = true := by
  rfl

/-- C6 amended: the component computes the missing/unused placeholder
names as data and substitution never throws — an unresolved placeholder
renders as the empty string, and with prompting disabled every variable
set yields a pair and no abort happens; aborts can arise only from the
prompting path (the code's own `exit(0)` on a declined confirmation),
not from unresolved placeholders themselves. -/
theorem c6_amended (cfg : Config) (script : Template) (stem logdir : String)
    (cli : Dict) (ans : Nat → Bool) :
    ((renderModel cfg script stem logdir cli false ans).2 = false)
    ∧ ((renderModel cfg script stem logdir cli false ans).1.length
        = (cfg.variables_iter cli).length)
    ∧ (∀ sp, (renderModel cfg script stem logdir cli sp ans).2 = true → sp = true)
    ∧ (∀ (pre post : Template) (vars : Dict) (n : String),
        dictGet? vars n = none →
          renderTemplate (pre ++ Tok.var n :: post) vars
            = renderTemplate pre vars ++ renderTemplate post vars)
    ∧ (∀ (t : Template) (given : List String) (n : String),
        n ∈ missingVars t given ↔ (n ∈ templateVarNames t ∧ n ∉ given))
    ∧ (∀ (t : Template) (given : List String) (n : String),
        n ∈ unusedVars t given ↔ (n ∈ given ∧ n ∉ templateVarNames t)) := by
  refine ⟨(renderLoop_no_prompt cfg script stem logdir ans _ 0).1,
    (renderLoop_no_prompt cfg script stem logdir ans _ 0).2,
    fun sp h => renderLoop_abort_imp cfg script stem logdir sp ans _ 0 h,
    ?_, ?_, ?_⟩
  · intro pre post vars n hn
    rw [renderTemplate_append]
    simp [renderTemplate, hn, String.empty_append]
  · intro t given n
    simp [missingVars, List.mem_filter, List.contains, List.elem_iff]
  · intro t given n
    simp [unusedVars, List.mem_filter, List.contains, List.elem_iff]

/-- Witness for C6's conditional clauses: substituting a variable set
without the placeholder simply drops it. -/
theorem c6_amended_witness :
    renderTemplate [Tok.lit "echo ", Tok.var "x"] [("y", "1")] = "echo " := by
  have h := (c6_amended ⟨[], []⟩ [] "" "" [] (fun _ => false)).2.2.2.1
    [Tok.lit "echo "] [] [("y", "1")] "x" rfl
  exact h.trans (by rfl)

/-! ## The option renderer (claims C9, C2, C10) -/

theorem foldl_lines (f : (String × Value) → String) :
    ∀ (l : List (String × Value)) (acc : List String),
      l.foldl (fun res kv => if !(is_empty kv.2) then res ++ [f kv] else res) acc
        = acc ++ (l.filter (fun kv => !(is_empty kv.2))).map f := by
  intro l
  induction l with
  | nil => intro acc; simp
  | cons kv rest ih =>
    intro acc
    rw [List.foldl_cons, List.filter_cons]
    cases h : is_empty kv.2 with
    | true => exact ih acc
    | false =>
      show List.foldl
          (fun res kv => if (!is_empty kv.2) = true then res ++ [f kv] else res)
          (acc ++ [f kv]) rest
        = acc ++ (f kv :: (rest.filter (fun kv => !is_empty kv.2)).map f)
      rw [ih (acc ++ [f kv])]
      simp

theorem linesOf_eq (o : Options) :
    linesOf o = (nonEmptyFields o).map
      (fun kv => "#SBATCH " ++ render_key kv.1 ++ render_value kv.1 kv.2) := by
  unfold linesOf nonEmptyFields
  rw [foldl_lines (fun kv => "#SBATCH " ++ render_key kv.1 ++ render_value kv.1 kv.2)
    (fieldsOf o) []]
  simp

theorem fieldsOf_names (o : Options) :
    (fieldsOf o).map Prod.fst =
      ["account", "acctg_freq", "array", "batch", "bb", "bbf", "begin",
       "chdir", "cluster_constraint", "clusters", "comment", "constraint",
       "container", "contiguous", "core_spec", "cores_per_socket",
       "cpu_freq", "cpus_per_gpu", "cpus_per_task", "deadline",
       "delay_boot", "dependency", "distribution", "error", "exclusive",
       "export", "export_file", "extra_node_info", "get_user_env", "gid",
       "gpu_bind", "gpu_freq", "gpus", "gpus_per_node", "gpus_per_task",
       "gres", "gres_flags", "hint", "hold", "input_", "job_name",
       "kill_on_invalid_dep", "licenses", "mail_type", "mail_user",
       "mcs_label", "mem", "mem_bind", "mem_per_cpu", "mincpus", "network",
       "nice", "no_kill", "no_requeue", "node_file", "nodelist", "nodes",
       "ntasks", "ntasks_per_core", "ntasks_per_gpu", "ntasks_per_node",
       "ntasks_per_socket", "output", "open_mode", "overcommit",
       "oversubscribe", "parsable", "partition", "power", "prefer",
       "priority", "profile", "propagate", "qos", "quiet", "requeue",
       "reservation", "signal", "sockets_per_node", "spread_job",
       "switches", "thread_spec", "threads_per_core", "time", "time_min",
       "tmp", "uid", "use_min_nodes", "verbose", "wait_all_nodes", "wckey"] :=
  rfl

theorem fieldsOf_names_nodup (o : Options) :
    ((fieldsOf o).map Prod.fst).Nodup := by
  rw [fieldsOf_names]
  decide

theorem entry_eq_of_nodup_keys :
    ∀ {l : List (String × Value)}, (l.map Prod.fst).Nodup →
      ∀ {a b : String × Value}, a ∈ l → b ∈ l → a.1 = b.1 → a = b := by
  intro l
  induction l with
  | nil =>
    intro _ a b ha
    simp at ha
  | cons kv rest ih =>
    intro hnd a b ha hb hab
    simp only [List.map_cons, List.nodup_cons] at hnd
    rcases List.mem_cons.mp ha with rfl | ha'
    · rcases List.mem_cons.mp hb with rfl | hb'
      · rfl
      · have hbm : b.1 ∈ rest.map Prod.fst := List.mem_map_of_mem Prod.fst hb'
        rw [← hab] at hbm
        exact absurd hbm hnd.1
    · rcases List.mem_cons.mp hb with rfl | hb'
      · have ham : a.1 ∈ rest.map Prod.fst := List.mem_map_of_mem Prod.fst ha'
        rw [hab] at ham
        exact absurd ham hnd.1
      · exact ih hnd.2 ha' hb' hab

theorem mem_fieldsOf_of_getField {o : Options} {key : String} {v : Value}
    (h : getField o key = some v) : (key, v) ∈ fieldsOf o := by
  unfold getField at h
  cases hf : (fieldsOf o).find? (fun kv => kv.1 == key) with
  | none => rw [hf] at h; simp at h
  | some kv =>
    rw [hf] at h
    simp only [Option.map_some'] at h
    have hk : kv.1 = key := by
      have hp := List.find?_some hf
      simpa using hp
    have hm : kv ∈ fieldsOf o := List.mem_of_find?_eq_some hf
    have hv2 : kv.2 = v := Option.some.inj h
    have hkv : kv = (key, v) := Prod.ext hk hv2
    rwa [hkv] at hm

theorem no_line_of_getField_empty {o : Options} {key : String} {v : Value}
    (hget : getField o key = some v) (hemp : is_empty v = true) :
    key ∉ (nonEmptyFields o).map Prod.fst := by
  intro hmem
  obtain ⟨kv, hkv_mem, hkv_eq⟩ := List.mem_map.mp hmem
  have hf := (List.mem_filter.mp hkv_mem).1
  have hne := (List.mem_filter.mp hkv_mem).2
  have h0 : (key, v) ∈ fieldsOf o := mem_fieldsOf_of_getField hget
  have hkv : kv = (key, v) :=
    entry_eq_of_nodup_keys (fieldsOf_names_nodup o) hf h0 (by rw [hkv_eq])
  rw [hkv] at hne
  simp [hemp] at hne

/-- C9: the rendered text is one `#SBATCH --<kebab-key><suffix>` line per
non-empty field in declared order, wrapped in a leading and trailing
blank line when any line exists, and is empty exactly when every field
is empty. -/
theorem c9_render_block (o : Options) :
    (linesOf o = (nonEmptyFields o).map
      (fun kv => "#SBATCH --" ++ kebab kv.1 ++ render_value kv.1 kv.2))
    ∧ (render_options o
        = if (linesOf o).isEmpty then ""
          else "\n" ++ String.intercalate "\n" (linesOf o) ++ "\n")
    ∧ (render_options o = "" ↔ ∀ kv ∈ fieldsOf o, is_empty kv.2 = true) := by
  have hform : linesOf o = (nonEmptyFields o).map
      (fun kv => "#SBATCH --" ++ kebab kv.1 ++ render_value kv.1 kv.2) := by
    rw [linesOf_eq]
    apply List.map_congr_left
    intro kv _
    unfold render_key
    rw [← String.append_assoc,
      show ("#SBATCH " ++ "--" : String) = "#SBATCH --" from rfl]
  have hdef : render_options o
      = if (linesOf o).length != 0 then
          "\n" ++ String.intercalate "\n" (linesOf o) ++ "\n"
        else String.intercalate "\n" (linesOf o) := rfl
  refine ⟨hform, ?_, ?_⟩
  · rw [hdef]
    cases hres : linesOf o with
    | nil => rfl
    | cons a l => rfl
  · constructor
    · intro h
      have hnil : linesOf o = [] := by
        cases hres : linesOf o with
        | nil => rfl
        | cons a l =>
          exfalso
          have hro : render_options o
              = "\n" ++ String.intercalate "\n" (a :: l) ++ "\n" := by
            rw [hdef, hres]
            simp
          rw [h] at hro
          have hlen := congrArg String.length hro
          simp only [String.length_append] at hlen
          have h1 : ("\n" : String).length = 1 := rfl
          have h0 : ("" : String).length = 0 := rfl
          rw [h1, h0] at hlen
          omega
      have hfe : nonEmptyFields o = [] := by
        have hle := linesOf_eq o
        rw [hnil] at hle
        exact List.map_eq_nil_iff.mp hle.symm
      unfold nonEmptyFields at hfe
      intro kv hkv
      have hnp := List.filter_eq_nil_iff.mp hfe kv hkv
      cases hie : is_empty kv.2 with
      | true => rfl
      | false => exact absurd (by simp [hie]) hnp
    · intro h
      have hfe : nonEmptyFields o = [] := by
        unfold nonEmptyFields
        apply List.filter_eq_nil_iff.mpr
        intro kv hkv
        simp [h kv hkv]
      have hnil : linesOf o = [] := by rw [linesOf_eq, hfe]; rfl
      rw [hdef, hnil]
      rfl

/-- Witness for C9: the entirely empty options render to the empty
string, through the theorem's emptiness characterisation. -/
theorem c9_render_block_witness : render_options emptyOptions = "" :=
  (c9_render_block emptyOptions).2.2.mpr (by decide)

/-- C2 counterexample: `wait_all_nodes` is a boolean-typed field, yet
when true its directive line carries the suffix `1` and the bare
directive line the claim requires is absent from the block. -/
theorem c2_counterexample :
    linesOf { emptyOptions with wait_all_nodes := true }
        = ["#SBATCH --wait-all-nodes1"]
    ∧ render_options { emptyOptions with wait_all_nodes := true }
        = "\n#SBATCH --wait-all-nodes1\n"
    ∧ "#SBATCH --wait-all-nodes"
        ∉ linesOf { emptyOptions with wait_all_nodes := true } := by
  refine ⟨by rfl, by rfl, by decide⟩

/-- C2 amended: every boolean-typed field except `wait_all_nodes`
renders as a bare directive when true and is omitted when false;
`wait_all_nodes` goes through its registered custom renderer, emitting
the digit `1` right after the key when true (still no line when
false). -/
theorem c2_amended (o : Options) :
    (∀ key, key ∈ bareBoolFields →
      (getField o key = some (Value.vbool true) →
        ("#SBATCH " ++ render_key key) ∈ linesOf o)
      ∧ (getField o key = some (Value.vbool false) →
        key ∉ (nonEmptyFields o).map Prod.fst))
    ∧ (getField o "wait_all_nodes" = some (Value.vbool true) →
        "#SBATCH --wait-all-nodes1" ∈ linesOf o)
    ∧ (getField o "wait_all_nodes" = some (Value.vbool false) →
        "wait_all_nodes" ∉ (nonEmptyFields o).map Prod.fst) := by
  have htrue : ∀ key, key ∈ bareBoolFields →
      getField o key = some (Value.vbool true) →
        ("#SBATCH " ++ render_key key) ∈ linesOf o := by
    intro key hk hkey
    have h0 : (key, Value.vbool true) ∈ fieldsOf o := mem_fieldsOf_of_getField hkey
    have h1 : (key, Value.vbool true) ∈ nonEmptyFields o :=
      List.mem_filter.mpr ⟨h0, rfl⟩
    have hrv : render_value key (Value.vbool true) = "" := by
      fin_cases hk <;> rfl
    rw [linesOf_eq]
    refine List.mem_map.mpr ⟨(key, Value.vbool true), h1, ?_⟩
    show "#SBATCH " ++ render_key key ++ render_value key (Value.vbool true)
        = "#SBATCH " ++ render_key key
    rw [hrv, String.append_empty]
  refine ⟨fun key hk => ⟨htrue key hk,
      fun h => no_line_of_getField_empty h rfl⟩, ?_, ?_⟩
  · intro hkey
    have h0 := mem_fieldsOf_of_getField hkey
    have h1 : ("wait_all_nodes", Value.vbool true) ∈ nonEmptyFields o :=
      List.mem_filter.mpr ⟨h0, rfl⟩
    rw [linesOf_eq]
    exact List.mem_map.mpr ⟨("wait_all_nodes", Value.vbool true), h1, rfl⟩
  · intro h
    exact no_line_of_getField_empty h rfl

/-- Witness for C2 at a concrete `Options`: `hold := true` yields the
bare `--hold` directive line. -/
theorem c2_amended_witness :
    ("#SBATCH " ++ render_key "hold") ∈ linesOf { emptyOptions with hold := true } :=
  (((c2_amended { emptyOptions with hold := true }).1 "hold" (by decide)).1) rfl

/-- C10: the integer zero is identified with boolean false by the
emptiness test, so an integer-valued optional field set to 0 emits no
directive line and a value-0 directive can never appear. -/
theorem c10_zero_int :
    (is_empty (Value.vint 0) = true)
    ∧ (∀ (o : Options) (key : String),
        getField o key = some (Value.vint 0) →
          key ∉ (nonEmptyFields o).map Prod.fst)
    ∧ (∀ (o : Options), ∀ kv ∈ nonEmptyFields o, kv.2 ≠ Value.vint 0)
    ∧ (render_options { emptyOptions with
        nice := some 0
        core_spec := some 0
        delay_boot := some 0
        qos := some 0 } = "") := by
  refine ⟨rfl, ?_, ?_, by rfl⟩
  · intro o key hkey
    exact no_line_of_getField_empty hkey rfl
  · intro o kv hkv hv
    have h2 := (List.mem_filter.mp hkv).2
    rw [hv] at h2
    simp [is_empty] at h2

/-- Witness for C10: `qos := some 0` contributes no directive line. -/
theorem c10_zero_int_witness :
    "qos" ∉ (nonEmptyFields { emptyOptions with qos := some 0 }).map Prod.fst :=
  c10_zero_int.2.1 { emptyOptions with qos := some 0 } "qos" rfl

end Sbt
